import Mathlib

/-!
Verification of the round-scoring and deterministic-game-sequencing engine of
the UCFGuessr repository. The JavaScript/TypeScript source (src/app/page.tsx,
plus an unnamed page variant) is shallowly embedded: JS numbers used as 32-bit
words are embedded as `Nat` with explicit `% 2^32` at each point where the
source applies a JS coercion (`Math.imul`, `>>> 0`, bitwise ops); JS floating
point numbers in the scoring path are idealised as real numbers `ℝ`; React
state is embedded as an explicit `GameState` record and every event handler as
a function `GameState → GameState × Effect`.
-/

namespace UCFGuessr

/-- The 32-bit modulus 2^32; the literal `4294967296` appears in the source as
the divisor producing a value in [0,1). -/
def pow32 : Nat := 4294967296

/-- The odd 32-bit increment `0x6D2B79F5` added to the generator state on every
call (page.tsx line 84). -/
def mbConst : Nat := 0x6D2B79F5

/-- Output word of mulberry32 for the already-advanced state `s`: the body of
the closure returned by `mulberry32` (page.tsx lines 85-88), after the state
increment.  JS `Math.imul` is multiplication mod 2^32, `^`/`|`/`>>>` are the
32-bit bitwise ops, and `t + imul(...)` is coerced back to 32 bits by the
enclosing `^=`; all of these depend only on the operands mod 2^32, so the
embedding takes `s % 2^32` first and keeps every intermediate below 2^32. -/
def mulberry32Out (s : Nat) : Nat :=
  let t0 := s % pow32
  let t1 := ((t0 ^^^ (t0 >>> 15)) * (t0 ||| 1)) % pow32
  let t2 := t1 ^^^ ((t1 + ((t1 ^^^ (t1 >>> 7)) * (t1 ||| 61)) % pow32) % pow32)
  t2 ^^^ (t2 >>> 14)

/-- Swap of the elements at positions `i` and `j` of a list, written with
`set`/lookup exactly as the destructuring swap
`[shuffled[i], shuffled[j]] = [shuffled[j], shuffled[i]]` (page.tsx line 101);
out-of-range indices leave the list unchanged (never reached by the loop). -/
def listSwap (l : List α) (i j : Nat) : List α :=
  match l[i]?, l[j]? with
  | some a, some b => (l.set i b).set j a
  | _, _ => l

/-- The Fisher-Yates loop of `getShuffledLocations` (page.tsx lines 99-102),
running the loop index from the argument down to 1.  The generator state is
threaded explicitly: each iteration advances it by `mbConst` (the JS `seed`
variable is a plain number, so the addition itself does not wrap; only the
output computation reduces mod 2^32) and draws
`j = Math.floor(random() * (i + 1))`, i.e. `out * (i + 1) / 2^32`. -/
def shuffleFrom (l : List α) (s : Nat) : Nat → List α × Nat
  | 0 => (l, s)
  | i + 1 =>
    let s' := s + mbConst
    let j := mulberry32Out s' * (i + 2) / pow32
    shuffleFrom (listSwap l (i + 1) j) s' i

/-- `getShuffledLocations(locations, seed)` (page.tsx lines 93-105): copy the
input, then Fisher-Yates from index `length - 1` down to 1 driven by
`mulberry32(seed)`. -/
def getShuffledLocations (locations : List α) (seed : Nat) : List α :=
  (shuffleFrom locations seed (locations.length - 1)).1

/-- Reference generator state advance following the spec's words: "advance
state by adding a fixed odd 32-bit constant", with "all generator state
arithmetic behaving as 32-bit wraparound arithmetic". -/
def specMulberryNext (s : Nat) : Nat := (s + mbConst) % pow32

/-- Reference shuffle loop following the spec's words: index `i` descending,
`j = floor(random() * (i+1))`, swap positions `i` and `j`, generator state kept
in 32-bit wraparound arithmetic throughout. -/
def specShuffleFrom (l : List α) (s : Nat) : Nat → List α × Nat
  | 0 => (l, s)
  | i + 1 =>
    let s' := specMulberryNext s
    let j := mulberry32Out s' * (i + 2) / pow32
    specShuffleFrom (listSwap l (i + 1) j) s' i

/-- Reference shuffle of the spec: a 32-bit seed driving the descending
Fisher-Yates loop with wraparound state arithmetic. -/
def specShuffle (locations : List α) (seed : Nat) : List α :=
  (specShuffleFrom locations (seed % pow32) (locations.length - 1)).1

/-- `buildRounds`: the round-sequence derivation, `shuffled.slice(0, 5)`
(page.tsx line 170) applied to the seeded shuffle. -/
def buildRounds (l : List α) (seed : Nat) : List α :=
  (getShuffledLocations l seed).take 5

/-- The `gameLocations` state produced by the effect at page.tsx lines 166-172:
the effect fires only when `locations.length > 0` (and a seed exists), in which
case it stores the first five shuffled locations; otherwise `gameLocations`
keeps its initial value `[]`. -/
def gameLocationsAfterLoad (l : List α) (seed : Nat) : List α :=
  if 0 < l.length then buildRounds l seed else []

/-- Guard of the round-initialisation effect (page.tsx line 176):
`if (gameLocations.length === 0) return;` — a round is set up iff the stored
game-location list is nonempty. -/
def roundInitRuns (gameLocations : List α) : Bool :=
  gameLocations.length != 0

/-- The call `getShuffledLocations(locations, seed)` as seen by the caller: the
function first copies its argument (`const shuffled = [...locations]`, page.tsx
line 96) and performs all swaps on the copy, so the call returns the shuffled
copy while the caller's array is left exactly as passed.  The second component
is the caller's array after the call. -/
def getShuffledLocationsCall (locations : List α) (seed : Nat) :
    List α × List α :=
  let shuffled := locations
  ((shuffleFrom shuffled seed (shuffled.length - 1)).1, locations)

/-- Degrees to radians, the local helper `toRadians` of `calculateScore`
(page.tsx line 216). -/
noncomputable def toRadians (deg : ℝ) : ℝ := deg * (Real.pi / 180)

/-- JS `Math.atan2(y, x)`: the argument of the complex number `x + y i`,
which matches `atan2` on all inputs the scoring path produces. -/
noncomputable def atan2 (y x : ℝ) : ℝ := Complex.arg ⟨x, y⟩

/-- Haversine great-circle distance of `calculateScore` (page.tsx lines
216-232) with the Earth-radius constant abstracted, exactly the expression the
source computes into its local `distance`. -/
noncomputable def haversineMiles (R : ℝ) (actualPos guessedPos : ℝ × ℝ) : ℝ :=
  let lat1 := actualPos.1
  let lon1 := actualPos.2
  let lat2 := guessedPos.1
  let lon2 := guessedPos.2
  let dLat := toRadians (lat2 - lat1)
  let dLon := toRadians (lon2 - lon1)
  let a := Real.sin (dLat / 2) * Real.sin (dLat / 2) +
    Real.cos (toRadians lat1) * Real.cos (toRadians lat2) *
    Real.sin (dLon / 2) * Real.sin (dLon / 2)
  let c := 2 * atan2 (Real.sqrt a) (Real.sqrt (1 - a))
  R * c

/-- `calculateScore` of page.tsx (lines 214-241): haversine distance with
`R = 3958.8` miles, score `Math.floor(5000 * Math.exp(-distance / 0.9))`
clamped by `Math.max(0, score)`, and `distance * 1609.34` meters returned for
display. -/
noncomputable def calculateScore (actualPos guessedPos : ℝ × ℝ) : ℤ × ℝ :=
  let R : ℝ := 3958.8
  let distance := haversineMiles R actualPos guessedPos
  let score := Int.floor ((5000 : ℝ) * Real.exp (-distance / 0.9))
  let distanceInMeters := distance * 1609.34
  (max 0 score, distanceInMeters)

/-- `calculateScore` of the unnamed page variant (part_001 lines 220-252):
same haversine shape with `R = 500`, score
`Math.floor(5000 * Math.exp(-10 * distance / campusSize))` with
`campusSize = 0.5`, clamped by `Math.max(0, score)`, and the same
`distance * 1609.34` meters. -/
noncomputable def calculateScore_v2 (actualPos guessedPos : ℝ × ℝ) : ℤ × ℝ :=
  let R : ℝ := 500
  let distance := haversineMiles R actualPos guessedPos
  let distanceInMeters := distance * 1609.34
  let campusSize : ℝ := 0.5
  let score := Int.floor ((5000 : ℝ) * Real.exp (-10 * distance / campusSize))
  (max 0 score, distanceInMeters)

/-- The spec's fixed functional form for the scorer: haversine distance from a
fixed radius constant, meters via a fixed mile-to-meter constant, and points
`floor(maxPoints * e^(-k * distance / scale))` clamped to a minimum of 0, all
constants named parameters. -/
noncomputable def specScoreForm (maxPoints k scale R mileToMeter : ℝ)
    (actual guess : ℝ × ℝ) : ℤ × ℝ :=
  let d := haversineMiles R actual guess
  (max 0 (Int.floor (maxPoints * Real.exp (-(k * d) / scale))), d * mileToMeter)

/-- Awarded points of page.tsx as a function of the haversine distance alone
(page.tsx lines 235 and 240). -/
noncomputable def scoreFromDistance (d : ℝ) : ℤ :=
  max 0 (Int.floor ((5000 : ℝ) * Real.exp (-d / 0.9)))

/-- A location record as loaded from the panorama CSV (page.tsx lines 37-42). -/
structure PanoramaLocation where
  id : String
  name : String
  image : String
  coordinates : ℝ × ℝ

/-- One resolved round's record (page.tsx lines 27-34). -/
structure RoundResult where
  round : Nat
  location : String
  actualPosition : ℝ × ℝ
  guessPosition : ℝ × ℝ
  score : ℤ
  distance : ℝ

/-- User-visible effect of an event handler: the `alert` prompt asking the
player to select a location first, or nothing. -/
inductive Effect where
  | alertPrompt
  | none
deriving DecidableEq

/-- The React state of the `Home` component that the guess path touches
(page.tsx lines 109-127); `timerActive` models whether the interval stored in
`timerRef` is currently scheduled. -/
structure GameState where
  score : ℤ
  round : Nat
  gamePhase : String
  selectedPosition : Option (ℝ × ℝ)
  currentLocation : Option PanoramaLocation
  roundScore : ℤ
  timeLeft : Nat
  showResults : Bool
  roundResults : List RoundResult
  timerActive : Bool

/-- `makeGuess` (page.tsx lines 243-278): prompt-and-return when no position is
selected while the phase is `"guessing"`; otherwise clear the timer, return if
no current location, else score the guess (falling back to the fixed campus
coordinate when nothing is selected), add the points to the cumulative score,
compute the rough Euclidean distance, append the `RoundResult` (which stores
that rough distance), and show the results. -/
noncomputable def makeGuess (s : GameState) : GameState × Effect :=
  if s.selectedPosition.isNone ∧ s.gamePhase = "guessing" then
    (s, Effect.alertPrompt)
  else
    let s1 : GameState := { s with timerActive := false }
    match s1.currentLocation with
    | Option.none => (s1, Effect.none)
    | some loc =>
      let actualPosition := loc.coordinates
      let guessPosition := s1.selectedPosition.getD (28.6024, -81.2001)
      let scored := calculateScore actualPosition guessPosition
      let points := scored.1
      let latDiff := |actualPosition.1 - guessPosition.1|
      let lngDiff := |actualPosition.2 - guessPosition.2|
      let distance := Real.sqrt (latDiff * latDiff + lngDiff * lngDiff) * 111000
      ({ s1 with
          roundScore := points,
          score := s1.score + points,
          roundResults := s1.roundResults ++
            [{ round := s1.round, location := loc.name,
               actualPosition := actualPosition,
               guessPosition := guessPosition,
               score := points, distance := distance }],
          showResults := true }, Effect.none)

/-- The confirm-guess button (page.tsx lines 519-533): rendered only while
`!showResults` and disabled unless a position is selected; clicking it calls
`makeGuess`. -/
noncomputable def confirmGuessClick (s : GameState) : GameState × Effect :=
  if s.showResults then (s, Effect.none)
  else if s.selectedPosition.isNone then (s, Effect.none)
  else makeGuess s

/-- The spacebar shortcut (page.tsx lines 362-369): calls `makeGuess` only when
a position is selected and results are not showing. -/
noncomputable def spaceKeyDown (s : GameState) : GameState × Effect :=
  if s.selectedPosition.isSome ∧ s.showResults = false then makeGuess s
  else (s, Effect.none)

/-- One countdown tick (page.tsx lines 194-203): only a scheduled timer fires;
at 1 or below it clears itself, forces `makeGuess`, and pins the clock to 0,
otherwise it decrements the clock. -/
noncomputable def timerTick (s : GameState) : GameState × Effect :=
  if s.timerActive then
    if s.timeLeft ≤ 1 then
      let r := makeGuess { s with timerActive := false }
      ({ r.1 with timeLeft := 0 }, r.2)
    else ({ s with timeLeft := s.timeLeft - 1 }, Effect.none)
  else (s, Effect.none)

/-- A concrete location whose panorama sits at the origin. -/
noncomputable def loc0 : PanoramaLocation :=
  { id := "p0", name := "Location 0", image := "/img0", coordinates := (0, 0) }

/-- A concrete in-round state: phase `"exploring"` (the only phase the game
ever sets), nothing selected yet, a current location present. -/
noncomputable def stateNoSelection : GameState :=
  { score := 0, round := 1, gamePhase := "exploring",
    selectedPosition := Option.none, currentLocation := some loc0,
    roundScore := 0, timeLeft := 300, showResults := false,
    roundResults := [], timerActive := true }

/-- A concrete in-round state with a selected guess at latitude 0,
longitude 180, against an actual location at the origin. -/
noncomputable def stateAntipodalGuess : GameState :=
  { score := 0, round := 1, gamePhase := "exploring",
    selectedPosition := some (0, 180), currentLocation := some loc0,
    roundScore := 0, timeLeft := 300, showResults := false,
    roundResults := [], timerActive := true }

/-- A concrete state in the (unreachable) `"guessing"` phase with nothing
selected, exercising the prompt guard of `makeGuess`. -/
noncomputable def stateGuessingNoSelection : GameState :=
  { score := 0, round := 1, gamePhase := "guessing",
    selectedPosition := Option.none, currentLocation := some loc0,
    roundScore := 0, timeLeft := 300, showResults := false,
    roundResults := [], timerActive := true }

/-- A concrete already-resolved state: results showing, timer cleared. -/
noncomputable def stateResolved : GameState :=
  { score := 4000, round := 1, gamePhase := "exploring",
    selectedPosition := some (28.6, -81.2), currentLocation := some loc0,
    roundScore := 4000, timeLeft := 120, showResults := true,
    roundResults := [], timerActive := false }

theorem cons_set_perm : ∀ (xs : List α) (k : Nat) (x b : α),
    xs[k]? = some b → List.Perm (b :: xs.set k x) (x :: xs) := by
  intro xs
  induction xs with
  | nil => intro k x b h; simp at h
  | cons y t ih =>
    intro k x b h
    cases k with
    | zero =>
      simp at h
      subst h
      simpa using List.Perm.swap x y t
    | succ n =>
      simp at h
      have h1 := ih n x b h
      show List.Perm (b :: (y :: t).set (n + 1) x) (x :: y :: t)
      rw [List.set_cons_succ]
      exact ((List.Perm.swap y b _).trans (h1.cons y)).trans (List.Perm.swap x y t)

theorem set_set_perm : ∀ (l : List α) (i j : Nat) (a b : α),
    l[i]? = some a → l[j]? = some b → List.Perm ((l.set i b).set j a) l := by
  intro l
  induction l with
  | nil => intro i j a b h _; simp at h
  | cons x xs ih =>
    intro i j a b ha hb
    cases i with
    | zero =>
      simp at ha
      subst ha
      cases j with
      | zero => simp at hb; subst hb; simp
      | succ m =>
        simp at hb
        rw [List.set_cons_zero, List.set_cons_succ]
        exact cons_set_perm xs m x b hb
    | succ n =>
      simp at ha
      cases j with
      | zero =>
        simp at hb
        subst hb
        rw [List.set_cons_succ, List.set_cons_zero]
        exact cons_set_perm xs n x a ha
      | succ m =>
        simp at hb
        rw [List.set_cons_succ, List.set_cons_succ]
        exact (ih n m a b ha hb).cons x

theorem listSwap_perm (l : List α) (i j : Nat) : List.Perm (listSwap l i j) l := by
  unfold listSwap
  cases ha : l[i]? with
  | none => simp
  | some a =>
    cases hb : l[j]? with
    | none => simp
    | some b => exact set_set_perm l i j a b ha hb

theorem shuffleFrom_perm (i : Nat) : ∀ (l : List α) (s : Nat),
    List.Perm (shuffleFrom l s i).1 l := by
  induction i with
  | zero => intro l s; simp [shuffleFrom]
  | succ n ih =>
    intro l s
    exact (ih _ _).trans (listSwap_perm l (n + 1) _)

theorem getShuffledLocations_perm (l : List α) (s : Nat) :
    List.Perm (getShuffledLocations l s) l :=
  shuffleFrom_perm _ l s

theorem getShuffledLocations_length (l : List α) (s : Nat) :
    (getShuffledLocations l s).length = l.length :=
  (getShuffledLocations_perm l s).length_eq

theorem mulberry32Out_congr {a b : Nat} (h : a % pow32 = b % pow32) :
    mulberry32Out a = mulberry32Out b := by
  simp only [mulberry32Out]
  rw [h]

theorem shuffleFrom_spec_congr : ∀ (i : Nat) (l : List α) (s₁ s₂ : Nat),
    s₁ % pow32 = s₂ % pow32 →
    (shuffleFrom l s₁ i).1 = (specShuffleFrom l s₂ i).1 := by
  intro i
  induction i with
  | zero => intro l s₁ s₂ _; rfl
  | succ n ih =>
    intro l s₁ s₂ h
    have hstep : (s₁ + mbConst) % pow32 = (s₂ + mbConst) % pow32 := by
      rw [Nat.add_mod, h, ← Nat.add_mod]
    have hwrap : (s₁ + mbConst) % pow32 = ((s₂ + mbConst) % pow32) % pow32 := by
      rw [Nat.mod_mod_of_dvd _ dvd_rfl, hstep]
    show (shuffleFrom _ _ n).1 = (specShuffleFrom _ _ n).1
    rw [mulberry32Out_congr hwrap]
    exact ih _ _ _ hwrap

/-- Claim C1: with identical seed and identical location list, the
round-sequence derivation (seeded shuffle, then first five elements) yields
identical ordered output on every run: `getShuffledLocations` and `buildRounds`
are deterministic functions of `(L, S)`. -/
theorem ucf_c1 : ∀ (α : Type) (l₁ l₂ : List α) (s₁ s₂ : Nat),
    s₁ = s₂ → l₁ = l₂ →
    getShuffledLocations l₁ s₁ = getShuffledLocations l₂ s₂ ∧
    buildRounds l₁ s₁ = buildRounds l₂ s₂ := by
  intro α l₁ l₂ s₁ s₂ hs hl
  subst hs
  subst hl
  exact ⟨rfl, rfl⟩

theorem ucf_c1_witness :
    (42 : Nat) = 42 ∧ ([0, 1, 2, 3, 4, 5] : List Nat) = [0, 1, 2, 3, 4, 5] ∧
    buildRounds ([0, 1, 2, 3, 4, 5] : List Nat) 42 =
      buildRounds ([0, 1, 2, 3, 4, 5] : List Nat) 42 :=
  ⟨rfl, rfl, (ucf_c1 Nat [0, 1, 2, 3, 4, 5] [0, 1, 2, 3, 4, 5] 42 42 rfl rfl).2⟩

/-- Claim C2: for every location list and seed, the seeded shuffle is a
permutation of its input: same length and the same multiset of elements. -/
theorem ucf_c2 : ∀ (α : Type) (l : List α) (s : Nat),
    List.Perm (getShuffledLocations l s) l ∧
    (getShuffledLocations l s).length = l.length ∧
    (↑(getShuffledLocations l s) : Multiset α) = (↑l : Multiset α) := by
  intro α l s
  refine ⟨getShuffledLocations_perm l s, getShuffledLocations_length l s, ?_⟩
  exact Multiset.coe_eq_coe.mpr (getShuffledLocations_perm l s)

/-- Claim C3: the implemented shuffle is extensionally equal to the spec's
reference algorithm: a descending Fisher-Yates loop with
`j = floor(random() * (i + 1))` driven by the add-constant/double-mix
generator whose state arithmetic is kept in 32-bit wraparound form. -/
theorem ucf_c3 : ∀ (α : Type) (l : List α) (s : Nat),
    getShuffledLocations l s = specShuffle l s := by
  intro α l s
  exact shuffleFrom_spec_congr _ l s (s % pow32) (Nat.mod_mod_of_dvd s dvd_rfl).symm

/-- Claim C4 counterexample: with the three-element location list `[0, 1, 2]`
and seed 7, the round-sequence derivation returns a nonempty list and the
round-initialisation guard does let a round start, refuting the claim that any
list of fewer than five locations yields an empty sequence and no round. -/
theorem ucf_c4_cex :
    gameLocationsAfterLoad ([0, 1, 2] : List Nat) 7 ≠ [] ∧
    roundInitRuns (gameLocationsAfterLoad ([0, 1, 2] : List Nat) 7) = true := by
  decide

/-- Claim C4 (amended): with at least five locations, `buildRounds` is exactly
the first five elements of the seeded shuffle; the not-ready guard triggers
only for an empty location list, in which case `gameLocations` stays empty and
no round starts, while any nonempty list — even one with fewer than five
entries — lets the round-initialisation effect run. -/
theorem ucf_c4 :
    (∀ (α : Type) (l : List α) (s : Nat), 5 ≤ l.length →
      buildRounds l s = (getShuffledLocations l s).take 5 ∧
      (buildRounds l s).length = 5) ∧
    (∀ (α : Type) (s : Nat),
      gameLocationsAfterLoad ([] : List α) s = [] ∧
      roundInitRuns (gameLocationsAfterLoad ([] : List α) s) = false) ∧
    (∀ (α : Type) (l : List α) (s : Nat), l ≠ [] →
      roundInitRuns (gameLocationsAfterLoad l s) = true) := by
  refine ⟨?_, ?_, ?_⟩
  · intro α l s h
    refine ⟨rfl, ?_⟩
    simp [buildRounds, List.length_take, getShuffledLocations_length]
    omega
  · intro α s
    constructor
    · simp [gameLocationsAfterLoad]
    · simp [gameLocationsAfterLoad, roundInitRuns]
  · intro α l s h
    have hl : 0 < l.length := List.length_pos.mpr h
    have h1 : (gameLocationsAfterLoad l s).length = min 5 l.length := by
      simp [gameLocationsAfterLoad, hl, buildRounds, List.length_take,
        getShuffledLocations_length]
    simp only [roundInitRuns, bne_iff_ne, ne_eq, decide_eq_true_eq, h1]
    omega

theorem ucf_c4_witness :
    (5 ≤ ([0, 1, 2, 3, 4, 5] : List Nat).length ∧
      buildRounds ([0, 1, 2, 3, 4, 5] : List Nat) 42 =
        (getShuffledLocations ([0, 1, 2, 3, 4, 5] : List Nat) 42).take 5 ∧
      (buildRounds ([0, 1, 2, 3, 4, 5] : List Nat) 42).length = 5) ∧
    (([0, 1, 2, 3, 4, 5] : List Nat) ≠ [] ∧
      roundInitRuns (gameLocationsAfterLoad ([0, 1, 2, 3, 4, 5] : List Nat) 42) = true) :=
  ⟨⟨by decide,
    (ucf_c4.1 Nat [0, 1, 2, 3, 4, 5] 42 (by decide)).1,
    (ucf_c4.1 Nat [0, 1, 2, 3, 4, 5] 42 (by decide)).2⟩,
   ⟨by decide, ucf_c4.2.2 Nat [0, 1, 2, 3, 4, 5] 42 (by decide)⟩⟩

/-- Claim C10: the seeded shuffle never mutates its input: the call copies the
array first, so the caller's list after the call is element-for-element the
list passed in, while the returned list is a permutation of it. -/
theorem ucf_c10 : ∀ (α : Type) (l : List α) (s : Nat),
    (getShuffledLocationsCall l s).2 = l ∧
    (getShuffledLocationsCall l s).1 = getShuffledLocations l s ∧
    List.Perm (getShuffledLocationsCall l s).1 l :=
  fun _ l s => ⟨rfl, rfl, getShuffledLocations_perm l s⟩

/-- Claim C5: both scorers are instances of the spec's fixed functional form —
haversine distance from a fixed radius constant, meters via the fixed
mile-to-meter constant 1609.34, and points
`floor(maxPoints * e^(-k * distance / scale))` clamped to a minimum of 0 —
page.tsx with `(maxPoints, k, scale, R) = (5000, 1, 0.9, 3958.8)` and the
unnamed variant with `(5000, 10, 0.5, 500)`. -/
theorem ucf_c5 : ∀ a g : ℝ × ℝ,
    calculateScore a g = specScoreForm 5000 1 0.9 3958.8 1609.34 a g ∧
    calculateScore_v2 a g = specScoreForm 5000 10 0.5 500 1609.34 a g := by
  intro a g
  constructor
  · show (max 0 (Int.floor ((5000 : ℝ) *
        Real.exp (-(haversineMiles 3958.8 a g) / 0.9))),
        haversineMiles 3958.8 a g * 1609.34) =
      (max 0 (Int.floor ((5000 : ℝ) *
        Real.exp (-((1 : ℝ) * haversineMiles 3958.8 a g) / 0.9))),
        haversineMiles 3958.8 a g * 1609.34)
    rw [one_mul]
  · show (max 0 (Int.floor ((5000 : ℝ) *
        Real.exp (-10 * haversineMiles 500 a g / 0.5))),
        haversineMiles 500 a g * 1609.34) =
      (max 0 (Int.floor ((5000 : ℝ) *
        Real.exp (-((10 : ℝ) * haversineMiles 500 a g) / 0.5))),
        haversineMiles 500 a g * 1609.34)
    rw [neg_mul]

/-- Claim C6: for a fixed actual position the awarded points are a
non-increasing function of the haversine distance of the guess, the points at
distance 0 are the configured maximum 5000, the points tend to 0 as the
distance grows without bound, and the returned points are never negative;
the final conjunct ties `scoreFromDistance` to the points component the
program returns. -/
theorem ucf_c6 :
    (∀ d₁ d₂ : ℝ, d₁ ≤ d₂ → scoreFromDistance d₂ ≤ scoreFromDistance d₁) ∧
    scoreFromDistance 0 = 5000 ∧
    Filter.Tendsto (fun d : ℝ => ((scoreFromDistance d : ℤ) : ℝ))
      Filter.atTop (nhds 0) ∧
    (∀ a g : ℝ × ℝ, 0 ≤ (calculateScore a g).1) ∧
    (∀ a g : ℝ × ℝ,
      (calculateScore a g).1 = scoreFromDistance (haversineMiles 3958.8 a g)) := by
  refine ⟨?_, ?_, ?_, ?_, ?_⟩
  · intro d₁ d₂ h
    unfold scoreFromDistance
    have hexp : Real.exp (-d₂ / 0.9) ≤ Real.exp (-d₁ / 0.9) := by
      apply Real.exp_le_exp.mpr
      have h09 : (0 : ℝ) < 0.9 := by norm_num
      rw [div_le_div_iff₀ h09 h09]
      nlinarith
    have hfl : Int.floor ((5000 : ℝ) * Real.exp (-d₂ / 0.9)) ≤
        Int.floor ((5000 : ℝ) * Real.exp (-d₁ / 0.9)) := by
      apply Int.floor_le_floor
      nlinarith [Real.exp_pos (-d₂ / 0.9)]
    exact max_le_max le_rfl hfl
  · norm_num [scoreFromDistance, Real.exp_zero]
  · have hup : Filter.Tendsto (fun d : ℝ => (5000 : ℝ) * Real.exp (-d / 0.9))
        Filter.atTop (nhds 0) := by
      have h1 : Filter.Tendsto (fun d : ℝ => -d / 0.9)
          Filter.atTop Filter.atBot := by
        apply Filter.Tendsto.atBot_div_const (by norm_num : (0 : ℝ) < 0.9)
        exact Filter.tendsto_neg_atTop_atBot
      have h2 := Real.tendsto_exp_atBot.comp h1
      simpa using h2.const_mul (5000 : ℝ)
    refine squeeze_zero ?_ ?_ hup
    · intro t
      have h0 : (0 : ℤ) ≤ scoreFromDistance t := le_max_left _ _
      exact_mod_cast h0
    · intro t
      unfold scoreFromDistance
      push_cast
      have hpos : (0 : ℝ) ≤ (5000 : ℝ) * Real.exp (-t / 0.9) := by positivity
      have hfl : ((Int.floor ((5000 : ℝ) * Real.exp (-t / 0.9)) : ℤ) : ℝ) ≤
          (5000 : ℝ) * Real.exp (-t / 0.9) := Int.floor_le _
      exact max_le hpos hfl
  · intro a g
    exact le_max_left 0 _
  · intro a g
    rfl

theorem ucf_c6_witness :
    (0 : ℝ) ≤ 1 ∧ scoreFromDistance 1 ≤ scoreFromDistance 0 :=
  ⟨by norm_num, ucf_c6.1 0 1 (by norm_num)⟩

/-- Claim C7 counterexample: in the concrete reachable state with phase
`"exploring"` and no position selected, an explicit `makeGuess` call is not
rejected: it produces no prompt, and it does change state by appending a
`RoundResult`; the spacebar trigger meanwhile silently ignores the attempt
without any prompt. -/
theorem ucf_c7_cex :
    (makeGuess stateNoSelection).2 ≠ Effect.alertPrompt ∧
    (makeGuess stateNoSelection).1.roundResults.length =
      stateNoSelection.roundResults.length + 1 ∧
    spaceKeyDown stateNoSelection = (stateNoSelection, Effect.none) := by
  refine ⟨?_, rfl, ?_⟩
  · intro h
    exact absurd h (by simp [makeGuess, stateNoSelection, loc0])
  · simp [spaceKeyDown, stateNoSelection]

/-- Claim C7 (amended): the prompt-and-reject behaviour only occurs in the
`"guessing"` phase, which the running game never sets; with no position
selected the player-facing triggers (confirm button, spacebar) are silent
no-ops — no state change, but also no user-facing prompt. -/
theorem ucf_c7 :
    (∀ s : GameState, s.selectedPosition = Option.none →
      s.gamePhase = "guessing" → makeGuess s = (s, Effect.alertPrompt)) ∧
    (∀ s : GameState, s.selectedPosition = Option.none →
      confirmGuessClick s = (s, Effect.none) ∧
      spaceKeyDown s = (s, Effect.none)) := by
  constructor
  · intro s h1 h2
    simp [makeGuess, h1, h2]
  · intro s h1
    constructor
    · by_cases hr : s.showResults
      · simp [confirmGuessClick, hr]
      · simp [confirmGuessClick, hr, h1]
    · simp [spaceKeyDown, h1]

theorem ucf_c7_witness :
    stateGuessingNoSelection.selectedPosition = Option.none ∧
    stateGuessingNoSelection.gamePhase = "guessing" ∧
    makeGuess stateGuessingNoSelection = (stateGuessingNoSelection, Effect.alertPrompt) ∧
    spaceKeyDown stateNoSelection = (stateNoSelection, Effect.none) :=
  ⟨rfl, rfl, ucf_c7.1 stateGuessingNoSelection rfl rfl,
    (ucf_c7.2 stateNoSelection rfl).2⟩

/-- Claim C8: resolving a round adds its points to the cumulative score
exactly once and appends exactly one `RoundResult`, setting `showResults` and
clearing the timer; on such a resolved state every resolution entry point (the
confirm button, the spacebar shortcut, the countdown tick) is rejected by its
guard and leaves the state unchanged, so a repeated resolution neither
increments the score again nor appends a second result. -/
theorem ucf_c8 :
    (∀ (s : GameState) (loc : PanoramaLocation),
      s.gamePhase = "exploring" → s.currentLocation = some loc →
      (makeGuess s).1.score = s.score + (makeGuess s).1.roundScore ∧
      (makeGuess s).1.roundResults.length = s.roundResults.length + 1 ∧
      (makeGuess s).1.showResults = true ∧
      (makeGuess s).1.timerActive = false) ∧
    (∀ s : GameState, s.showResults = true → s.timerActive = false →
      confirmGuessClick s = (s, Effect.none) ∧
      spaceKeyDown s = (s, Effect.none) ∧
      timerTick s = (s, Effect.none)) := by
  constructor
  · intro s loc hphase hloc
    simp [makeGuess, hphase, hloc]
  · intro s h1 h2
    refine ⟨?_, ?_, ?_⟩
    · simp [confirmGuessClick, h1]
    · simp [spaceKeyDown, h1]
    · simp [timerTick, h2]

theorem ucf_c8_witness :
    (stateAntipodalGuess.gamePhase = "exploring" ∧
      stateAntipodalGuess.currentLocation = some loc0 ∧
      (makeGuess stateAntipodalGuess).1.showResults = true) ∧
    (stateResolved.showResults = true ∧ stateResolved.timerActive = false ∧
      confirmGuessClick stateResolved = (stateResolved, Effect.none)) :=
  ⟨⟨rfl, rfl, (ucf_c8.1 stateAntipodalGuess loc0 rfl rfl).2.2.1⟩,
   ⟨rfl, rfl, (ucf_c8.2 stateResolved rfl rfl).1⟩⟩

theorem haversineMiles_eval :
    haversineMiles 3958.8 ((0 : ℝ), (0 : ℝ)) ((0 : ℝ), (180 : ℝ)) =
      3958.8 * Real.pi := by
  simp only [haversineMiles, toRadians, atan2]
  norm_num
  rw [show (180 : ℝ) * (Real.pi / 180) / 2 = Real.pi / 2 by ring]
  rw [Real.sin_pi_div_two]
  norm_num
  rw [show ((⟨0, 1⟩ : ℂ)) = Complex.I from rfl, Complex.arg_I]
  ring

/-- Claim C9 (code-bug evaluation): resolving the concrete round with actual
position (0, 0) and guess (0, 180) stores a `RoundResult` whose distance is
the rough Euclidean degree-scaled figure 19 980 000 m, while the haversine
`distanceMeters` that `calculateScore` returned for the same pair is
`3958.8 * π * 1609.34` m, a different number — so the stored and displayed
distance is the rough one and the haversine figure is the value that is
dropped, contrary to the claim. -/
theorem ucf_c9 :
    (makeGuess stateAntipodalGuess).1.roundResults.map
      (fun r => r.distance) = [(19980000 : ℝ)] ∧
    (calculateScore ((0 : ℝ), (0 : ℝ)) ((0 : ℝ), (180 : ℝ))).2 =
      3958.8 * Real.pi * 1609.34 ∧
    3958.8 * Real.pi * 1609.34 ≠ (19980000 : ℝ) := by
  refine ⟨?_, ?_, ?_⟩
  · have habs180 : |(0 : ℝ) - 180| = 180 := by
      rw [show (0 : ℝ) - 180 = -(180 : ℝ) by norm_num, abs_neg]
      exact abs_of_nonneg (by norm_num)
    have hsqrt : Real.sqrt (32400 : ℝ) = 180 := by
      rw [show (32400 : ℝ) = (180 : ℝ) ^ 2 by norm_num]
      exact Real.sqrt_sq (by norm_num)
    simp only [makeGuess, stateAntipodalGuess, loc0]
    norm_num [habs180]
    norm_num [hsqrt]
  · show haversineMiles 3958.8 ((0 : ℝ), (0 : ℝ)) ((0 : ℝ), (180 : ℝ)) * 1609.34 =
      3958.8 * Real.pi * 1609.34
    rw [haversineMiles_eval]
  · intro h
    have hπ := Real.pi_gt_d6
    nlinarith

end UCFGuessr
